import Mathlib

/-!
Verification development for the keyframe-indexer pipeline.

The Rust sources are shallowly embedded: `f32`/`f64` arithmetic is modelled
over `ℚ`, byte vectors over `List ℕ`, and fallible operations over
`Option`/`Except`.  Structures, thresholds and control flow mirror the
source files (`scene_detector.rs`, `ocr_data.rs`, `event_detector.rs`,
`error_modal_detector.rs`, `event_correlator.rs`, `event_parquet_writer.rs`,
`encryption.rs`, `keyframe_extractor.rs`).
-/

/-- Scene-detection thresholds, from `config.rs` (`SceneDetectionConfig`). -/
structure SceneDetectionConfig where
  ssim_threshold : ℚ
  phash_distance_threshold : ℕ
  entropy_threshold : ℚ

/-- Default thresholds, from `impl Default for SceneDetectionConfig`. -/
def SceneDetectionConfig.default : SceneDetectionConfig :=
  { ssim_threshold := 8/10, phash_distance_threshold := 10, entropy_threshold := 1/10 }

/-- Scene-change kinds, from `scene_detector.rs` (`SceneChangeType`). -/
inductive SceneChangeType where
  | Cut
  | Fade
  | Motion
  | ContentChange
deriving DecidableEq, Repr

/-- Embeds `SceneDetector::classify_scene_change` (scene_detector.rs:193-215):
nested threshold tests returning the change type, `none` when no scene change
is emitted. -/
def classify_scene_change (cfg : SceneDetectionConfig) (ssim_score : ℚ)
    (phash_distance : ℕ) (entropy_delta : ℚ) : Option SceneChangeType :=
  if ssim_score < cfg.ssim_threshold then
    if phash_distance > cfg.phash_distance_threshold * 2 then
      some SceneChangeType.Cut
    else if entropy_delta > cfg.entropy_threshold * 2 then
      some SceneChangeType.ContentChange
    else
      some SceneChangeType.Fade
  else if phash_distance > cfg.phash_distance_threshold then
    some SceneChangeType.Motion
  else if entropy_delta > cfg.entropy_threshold then
    some SceneChangeType.ContentChange
  else
    none

/-- Embeds `SceneDetector::calculate_confidence` (scene_detector.rs:217-225):
weighted average of the three signals, capped at 1. -/
def calculate_confidence (ssim_score : ℚ) (phash_distance : ℕ)
    (entropy_delta : ℚ) : ℚ :=
  let ssim_confidence := 1 - ssim_score
  let phash_confidence := min ((phash_distance : ℚ) / 64) 1
  let entropy_confidence := min (entropy_delta / 8) 1
  min (ssim_confidence * (1/2) + phash_confidence * (3/10) + entropy_confidence * (1/5)) 1

/-- The confidence formula as the spec states it (spec.md §4.2): weights
0.4/0.4/0.2, divisors 32 and 4, a conditional 1.5 boost, and a clamp to
[0,1].  Written from the spec's words, for comparison with
`calculate_confidence`. -/
def specConfidenceFormula (ssim_score : ℚ) (phash_distance : ℕ)
    (entropy_delta : ℚ) : ℚ :=
  let core := (4/10) * (1 - ssim_score) + (4/10) * min ((phash_distance : ℚ) / 32) 1
    + (2/10) * min (entropy_delta / 4) 1
  let boosted := if ssim_score < 1/2 ∨ phash_distance > 20 then (3/2) * core else core
  min (max boosted 0) 1

/-- The classification rules in the order the spec lists them (spec.md §4.2,
first match wins).  Written from the spec's words, for comparison with
`classify_scene_change`. -/
def specClassifyOrdered (cfg : SceneDetectionConfig) (ssim_score : ℚ)
    (phash_distance : ℕ) (entropy_delta : ℚ) : Option SceneChangeType :=
  if ssim_score < cfg.ssim_threshold ∧ phash_distance > 2 * cfg.phash_distance_threshold then
    some SceneChangeType.Cut
  else if ssim_score < cfg.ssim_threshold ∧ entropy_delta > 2 * cfg.entropy_threshold then
    some SceneChangeType.ContentChange
  else if ssim_score < cfg.ssim_threshold then
    some SceneChangeType.Fade
  else if phash_distance > cfg.phash_distance_threshold then
    some SceneChangeType.Motion
  else if entropy_delta > cfg.entropy_threshold then
    some SceneChangeType.ContentChange
  else
    none

/-- A detected scene change, from `scene_detector.rs` (`SceneChange`),
restricted to the fields the loop computes for an adjacent pair. -/
structure SceneChange where
  frame_index : ℕ
  change_type : SceneChangeType
  confidence : ℚ
  ssim_score : ℚ
  phash_distance : ℕ
  entropy_delta : ℚ
deriving DecidableEq, Repr

/-- Embeds the per-pair emission loop of `SceneDetector::detect_scene_changes`
(scene_detector.rs:59-97) over the stream of adjacent-pair signals
`(ssim, phash_distance, entropy_delta)`; pair `i` compares frame `i+1`
against frame `i`. -/
def sceneChangesFromSignals (cfg : SceneDetectionConfig)
    (signals : List (ℚ × ℕ × ℚ)) : List SceneChange :=
  (signals.enum).filterMap (fun p =>
    match classify_scene_change cfg p.2.1 p.2.2.1 p.2.2.2 with
    | some t => some
        { frame_index := p.1 + 1
          change_type := t
          confidence := calculate_confidence p.2.1 p.2.2.1 p.2.2.2
          ssim_score := p.2.1
          phash_distance := p.2.2.1
          entropy_delta := p.2.2.2 }
    | none => none)

/-- Bounding box as in `ocr_data.rs` (`BoundingBox`), coordinates over ℚ. -/
structure BoundingBox where
  x : ℚ
  y : ℚ
  width : ℚ
  height : ℚ
deriving DecidableEq, Repr

/-- Embeds `BoundingBox::area` (ocr_data.rs:42-44). -/
def BoundingBox.area (b : BoundingBox) : ℚ := b.width * b.height

/-- Embeds `BoundingBox::intersects` (ocr_data.rs:46-52): the negation of the
four strict separation tests. -/
def BoundingBox.intersects (b o : BoundingBox) : Prop :=
  ¬ (b.x + b.width < o.x ∨ o.x + o.width < b.x ∨
     b.y + b.height < o.y ∨ o.y + o.height < b.y)

instance (b o : BoundingBox) : Decidable (b.intersects o) := by
  unfold BoundingBox.intersects; infer_instance

/-- The `intersection_width` local of `BoundingBox::iou` (ocr_data.rs:62). -/
def BoundingBox.intersectionWidth (b o : BoundingBox) : ℚ :=
  min (b.x + b.width) (o.x + o.width) - max b.x o.x

/-- The `intersection_height` local of `BoundingBox::iou` (ocr_data.rs:63). -/
def BoundingBox.intersectionHeight (b o : BoundingBox) : ℚ :=
  min (b.y + b.height) (o.y + o.height) - max b.y o.y

/-- The `intersection_area` local of `BoundingBox::iou` (ocr_data.rs:65). -/
def BoundingBox.intersectionArea (b o : BoundingBox) : ℚ :=
  b.intersectionWidth o * b.intersectionHeight o

/-- The `union_area` local of `BoundingBox::iou` (ocr_data.rs:66). -/
def BoundingBox.unionArea (b o : BoundingBox) : ℚ :=
  b.area + o.area - b.intersectionArea o

/-- Embeds `BoundingBox::iou` (ocr_data.rs:54-73): zero when not intersecting,
else intersection area over union area, zero again when the union area is not
positive. -/
def BoundingBox.iou (b o : BoundingBox) : ℚ :=
  if ¬ b.intersects o then 0
  else if b.unionArea o > 0 then b.intersectionArea o / b.unionArea o else 0

/-- Truncation of a rational toward zero, the behaviour of Rust's `as i32`
cast on an in-range float. -/
def ratTrunc (q : ℚ) : ℤ := q.num / (q.den : ℤ)

/-- Embeds `EventDetector::generate_field_id` (event_detector.rs:436-444):
the field identifier built from the integer-truncated ROI coordinates. -/
def generate_field_id (roi : BoundingBox) : String :=
  "field_" ++ toString (ratTrunc roi.x) ++ "_" ++ toString (ratTrunc roi.y)
    ++ "_" ++ toString (ratTrunc roi.width) ++ "_" ++ toString (ratTrunc roi.height)

/-- One cached frame's OCR payload: the frame id together with its retained
OCR results, abstracted over the payload type. -/
structure CachedFrame (V : Type) where
  frameId : String
  results : V
deriving DecidableEq, Repr

/-- Embeds `EventDetector::get_previous_frame_results`
(event_detector.rs:583-588).  The Rust code reads
`self.previous_frame_cache.values().next()`: the first entry of the
`HashMap`'s iteration order, which is unspecified and run dependent.  The
iteration view of the cache is therefore passed explicitly; the caller
supplies any permutation of the cached entries. -/
def get_previous_frame_results {V : Type} (iterView : List (CachedFrame V)) :
    Option (CachedFrame V) :=
  iterView.head?

/-- The comparison partner the spec prescribes (spec.md §4.3 and §9: the
most recently inserted cached frame).  Written from the spec's words, for
comparison with `get_previous_frame_results`; the cache list is kept in
insertion order. -/
def specMostRecentCached {V : Type} (cache : List (CachedFrame V)) :
    Option (CachedFrame V) :=
  cache.getLast?

/-- Association-list insert with the `HashMap::insert` key semantics used by
`cache_frame_results`: replace the payload when the frame id is present,
otherwise append.  Insertion order of the remaining keys is preserved. -/
def cacheInsert {V : Type} (cache : List (CachedFrame V)) (frameId : String)
    (results : V) : List (CachedFrame V) :=
  if cache.any (fun c => c.frameId = frameId) then
    cache.map (fun c => if c.frameId = frameId then ⟨frameId, results⟩ else c)
  else
    cache ++ [⟨frameId, results⟩]

/-- Embeds `EventDetector::cache_frame_results` (event_detector.rs:568-581).
When the cache already holds `MAX_CACHED_FRAMES = 10` entries the code removes
`self.previous_frame_cache.keys().next()`: the first key of the `HashMap`'s
unspecified iteration order, supplied here as `iterKeys` (any permutation of
the cached keys).  The new frame is then inserted. -/
def cache_frame_results {V : Type} (cache : List (CachedFrame V))
    (iterKeys : List String) (frameId : String) (results : V) :
    List (CachedFrame V) :=
  let trimmed :=
    if cache.length ≥ 10 then
      match iterKeys.head? with
      | some oldestKey => cache.filter (fun c => c.frameId ≠ oldestKey)
      | none => cache
    else cache
  cacheInsert trimmed frameId results

/-- A correlator-buffer event, from `event_correlator.rs`
(`CorrelationEvent`), restricted to the identity and timestamp (in
milliseconds) that the buffer maintenance inspects. -/
structure CorrelationEvent where
  eventId : ℕ
  timestampMs : ℤ
deriving DecidableEq, Repr

/-- The buffer capacity set by `EventCorrelator::with_config`
(event_correlator.rs:139-153): `max_buffer_size = 1000`. -/
def maxBufferSize : ℕ := 1000

/-- Embeds `EventCorrelator::add_event` (event_correlator.rs:509-517):
push the event at the back, then pop from the front while the length
exceeds `max_buffer_size`. -/
def add_event (buffer : List CorrelationEvent) (e : CorrelationEvent) :
    List CorrelationEvent :=
  let b := buffer ++ [e]
  b.drop (b.length - maxBufferSize)

/-- Embeds `EventCorrelator::clean_old_events` (event_correlator.rs:520-530):
pop events from the front while the front event's timestamp is older than
`current - max_correlation_window_ms`; stop at the first fresh event. -/
def clean_old_events (buffer : List CorrelationEvent) (currentMs windowMs : ℤ) :
    List CorrelationEvent :=
  buffer.dropWhile (fun e => e.timestampMs < currentMs - windowMs)

/-- The in-flight state of `EventParquetWriter` (event_parquet_writer.rs):
the buffered batch of rows, abstracted over the row type. -/
structure WriterState (Row : Type) where
  current_batch : List Row

/-- Embeds `EventParquetWriter::flush_batch` (event_parquet_writer.rs:82-105).
Record-batch construction and the Parquet/file write are the two fallible
steps, passed as functions; the batch is cleared only after the write
returns successfully. -/
def flush_batch {Row RB E : Type}
    (create_record_batch : List Row → Except E RB)
    (write_record_batch : RB → Except E Unit)
    (st : WriterState Row) : Except E Unit × WriterState Row :=
  if st.current_batch.isEmpty then
    (Except.ok (), st)
  else
    match create_record_batch st.current_batch with
    | Except.error e => (Except.error e, st)
    | Except.ok rb =>
      match write_record_batch rb with
      | Except.error e => (Except.error e, st)
      | Except.ok _ => (Except.ok (), { current_batch := [] })

/-- Little-endian 8-byte encoding of a length, as bincode writes a `u64`
sequence-length prefix. -/
def u64le (n : ℕ) : List ℕ :=
  [n % 256, n / 256 % 256, n / 256 ^ 2 % 256, n / 256 ^ 3 % 256,
   n / 256 ^ 4 % 256, n / 256 ^ 5 % 256, n / 256 ^ 6 % 256, n / 256 ^ 7 % 256]

/-- Little-endian value of an 8-byte prefix. -/
def leVal8 (b : List ℕ) : ℕ :=
  match b with
  | [b0, b1, b2, b3, b4, b5, b6, b7] =>
    b0 + b1 * 256 + b2 * 256 ^ 2 + b3 * 256 ^ 3 + b4 * 256 ^ 4 + b5 * 256 ^ 5
      + b6 * 256 ^ 6 + b7 * 256 ^ 7
  | _ => 0

/-- Embeds `bincode::serialize` of `EncryptedData { nonce, ciphertext }`
(encryption.rs:16-20, 46-51): each `Vec<u8>` is written as an 8-byte
little-endian length followed by its bytes. -/
def serializeEncryptedData (nonce ciphertext : List ℕ) : List ℕ :=
  u64le nonce.length ++ nonce ++ u64le ciphertext.length ++ ciphertext

/-- Reads an 8-byte little-endian length prefix, returning the value and the
remaining bytes; fails when fewer than 8 bytes remain. -/
def readLen (bytes : List ℕ) : Option (ℕ × List ℕ) :=
  if 8 ≤ bytes.length then some (leVal8 (bytes.take 8), bytes.drop 8) else none

/-- Reads `n` raw bytes, returning them and the remaining bytes; fails when
fewer than `n` bytes remain. -/
def readBytes (n : ℕ) (bytes : List ℕ) : Option (List ℕ × List ℕ) :=
  if n ≤ bytes.length then some (bytes.take n, bytes.drop n) else none

/-- Embeds `bincode::deserialize` into `EncryptedData` (encryption.rs:56-57):
read the nonce length and bytes, then the ciphertext length and bytes;
fail when the input is too short. -/
def deserializeEncryptedData (bytes : List ℕ) : Option (List ℕ × List ℕ) :=
  match readLen bytes with
  | none => none
  | some (n, r1) =>
    match readBytes n r1 with
    | none => none
    | some (nonce, r2) =>
      match readLen r2 with
      | none => none
      | some (m, r3) =>
        match readBytes m r3 with
        | none => none
        | some (ciphertext, _) => some (nonce, ciphertext)

/-- Abstract AEAD cipher with explicit nonce, the interface of
`aes_gcm::Aes256Gcm` used by `encryption.rs`; the cipher itself lives in the
`aes-gcm` crate, outside this repository.  Modelled from the spec:
`enc key nonce plaintext` produces the ciphertext-with-tag, `dec` returns
`none` on authentication failure. -/
structure AeadScheme (K : Type) where
  enc : K → List ℕ → List ℕ → List ℕ
  dec : K → List ℕ → List ℕ → Option (List ℕ)

/-- Embeds `EncryptionManager::encrypt` (encryption.rs:38-52) with the freshly
generated 96-bit nonce passed explicitly: encrypt the plaintext under the
nonce, then serialize `{nonce, ciphertext}`. -/
def EncryptionManager.encrypt {K : Type} (a : AeadScheme K) (key : K)
    (nonce plaintext : List ℕ) : List ℕ :=
  serializeEncryptedData nonce (a.enc key nonce plaintext)

/-- Embeds `EncryptionManager::decrypt` (encryption.rs:54-66): deserialize
`{nonce, ciphertext}` and decrypt; either step may fail. -/
def EncryptionManager.decrypt {K : Type} (a : AeadScheme K) (key : K)
    (encrypted_bytes : List ℕ) : Option (List ℕ) :=
  match deserializeEncryptedData encrypted_bytes with
  | none => none
  | some (nonce, ciphertext) => a.dec key nonce ciphertext

/-- Rust's `f32::round`: round half away from zero. -/
def rustRound (q : ℚ) : ℤ :=
  if 0 ≤ q then ⌊q + 1/2⌋ else ⌈q - 1/2⌉

/-- Embeds the frame-interval computation of
`KeyframeExtractor::extract_keyframes` (keyframe_extractor.rs:77-80):
`(source_fps / extraction_fps).round() as usize` (the float-to-usize cast
saturates negatives to zero). -/
def frameInterval (source_fps extraction_fps : ℚ) : ℕ :=
  (rustRound (source_fps / extraction_fps)).toNat

/-- The per-frame selection test of the extraction loop
(keyframe_extractor.rs:98): `frame_count % frame_interval == 0`.  Rust's `%`
with a zero divisor aborts the process; that outcome is modelled as `none`. -/
def frameSelectionStep (frame_count interval : ℕ) : Option Bool :=
  if interval = 0 then none else some (decide (frame_count % interval = 0))

/-- OCR record, from `ocr_data.rs` (`OCRResult`), restricted to the fields the
error/modal detector inspects. -/
structure OCRResult where
  text : String
  roi : BoundingBox
  confidence : ℚ
deriving DecidableEq, Repr

/-- Error and modal kinds, from `error_modal_detector.rs` (`ErrorModalType`). -/
inductive ErrorModalType where
  | SystemError
  | ApplicationError
  | NetworkError
  | AuthError
  | ValidationError
  | Warning
  | ConfirmationDialog
  | InfoDialog
  | AlertDialog
  | FileDialog
  | SettingsDialog
  | ProgressDialog
  | CustomDialog
deriving DecidableEq, Repr

/-- Severity levels, from `error_modal_detector.rs` (`SeverityLevel`). -/
inductive SeverityLevel where
  | Critical
  | High
  | Medium
  | Low
  | Info
deriving DecidableEq, Repr

/-- Detected-event kinds, from `event_detector.rs` (`EventType`). -/
inductive EventType where
  | FieldChange
  | FormSubmission
  | ModalAppearance
  | ErrorDisplay
  | Navigation
  | DataEntry
deriving DecidableEq, Repr

/-- Embeds the `event_type` mapping of
`EventDetector::convert_error_modal_to_detected_event`
(event_detector.rs:607-617): error families map to `ErrorDisplay`, dialog
families to `ModalAppearance`. -/
def convert_error_modal_type : ErrorModalType → EventType
  | ErrorModalType.SystemError => EventType.ErrorDisplay
  | ErrorModalType.ApplicationError => EventType.ErrorDisplay
  | ErrorModalType.NetworkError => EventType.ErrorDisplay
  | ErrorModalType.AuthError => EventType.ErrorDisplay
  | ErrorModalType.ValidationError => EventType.ErrorDisplay
  | ErrorModalType.Warning => EventType.ErrorDisplay
  | _ => EventType.ModalAppearance

/-- Configuration from `error_modal_detector.rs`
(`ErrorModalDetectionConfig`). -/
structure ErrorModalDetectionConfig where
  min_ocr_confidence : ℚ
  min_error_confidence : ℚ
  min_modal_confidence : ℚ
  enable_layout_detection : Bool
  min_dialog_width : ℚ
  min_dialog_height : ℚ
  max_dialog_width_ratio : ℚ
  max_dialog_height_ratio : ℚ

/-- Defaults from `impl Default for ErrorModalDetectionConfig`. -/
def ErrorModalDetectionConfig.default : ErrorModalDetectionConfig :=
  { min_ocr_confidence := 7/10
    min_error_confidence := 6/10
    min_modal_confidence := 6/10
    enable_layout_detection := true
    min_dialog_width := 200
    min_dialog_height := 100
    max_dialog_width_ratio := 8/10
    max_dialog_height_ratio := 8/10 }

/-- Substring test on character lists: does the needle occur contiguously in
the haystack. -/
def containsSubList (needle : List Char) : List Char → Bool
  | [] => needle.isEmpty
  | c :: t => needle.isPrefixOf (c :: t) || containsSubList needle t

/-- Does the character list contain a digit immediately followed by a percent
sign (one-character witness of the regex fragment matching digits before a
percent sign). -/
def digitThenPercent : List Char → Bool
  | a :: b :: t => (a.isDigit && (b == '%')) || digitThenPercent (b :: t)
  | _ => false

/-- A compiled detection pattern, from `error_modal_detector.rs`
(`CompiledPattern`).  Each source regex is a case-insensitive alternation of
literal phrases (plus, for one progress pattern, a digits-then-percent
branch); it is represented by the expanded list of lowercase alternatives. -/
structure CompiledPattern where
  alternatives : List String
  matchesDigitPercent : Bool
  pattern_type : String
  confidence_weight : ℚ

/-- Regex match of a compiled pattern against the lowercased text, the
`pattern.regex.is_match(text)` test. -/
def patternMatches (p : CompiledPattern) (lowered : List Char) : Bool :=
  p.alternatives.any (fun a => containsSubList a.toList lowered)
    || (p.matchesDigitPercent && digitThenPercent lowered)

/-- Error patterns, from `ErrorModalDetector::compile_error_patterns`
(error_modal_detector.rs:685-730), alternations expanded. -/
def error_patterns : List CompiledPattern :=
  [ ⟨["fatal", "critical", "crash", "panic", "abort"], false, "critical_error", 9/10⟩,
    ⟨["segmentation fault", "access violation", "null pointer"], false, "critical_error", 95/100⟩,
    ⟨["connection failed", "connection refused", "connection timeout",
      "network error", "network unavailable"], false, "network_error", 8/10⟩,
    ⟨["dns error", "dns failed", "host not found", "server not responding"], false,
      "network_error", 85/100⟩,
    ⟨["access denied", "unauthorized", "authentication failed",
      "authentication required"], false, "auth_error", 8/10⟩,
    ⟨["login failed", "login invalid", "incorrect password",
      "incorrect credentials"], false, "auth_error", 85/100⟩,
    ⟨["permission denied", "insufficient privileges"], false, "auth_error", 8/10⟩,
    ⟨["invalid input", "invalid format", "invalid value", "validation failed",
      "validation error"], false, "validation_error", 7/10⟩,
    ⟨["required field", "missing value", "missing input",
      "field cannot be empty"], false, "validation_error", 75/100⟩,
    ⟨["error", "failed", "exception", "problem"], false, "application_error", 6/10⟩,
    ⟨["cannot", "unable to", "failed to"], false, "application_error", 5/10⟩,
    ⟨["warning", "caution", "notice"], false, "warning", 7/10⟩ ]

/-- Modal patterns, from `ErrorModalDetector::compile_modal_patterns`
(error_modal_detector.rs:733-774), alternations expanded. -/
def modal_patterns : List CompiledPattern :=
  [ ⟨["confirm", "are you sure", "do you want to"], false, "confirmation_dialog", 8/10⟩,
    ⟨["yes", "no", "ok", "cancel", "continue", "abort"], false, "confirmation_dialog", 6/10⟩,
    ⟨["open file", "open folder", "open directory", "save file", "save folder",
      "save directory", "choose file", "choose folder", "choose directory",
      "select file", "select folder", "select directory"], false, "file_dialog", 85/100⟩,
    ⟨["browse", "upload", "download"], false, "file_dialog", 7/10⟩,
    ⟨["settings", "preferences", "options", "configuration"], false, "settings_dialog", 8/10⟩,
    ⟨["apply", "reset", "default"], false, "settings_dialog", 6/10⟩,
    ⟨["progress", "loading", "please wait", "processing"], false, "progress_dialog", 8/10⟩,
    ⟨["completed", "remaining"], true, "progress_dialog", 7/10⟩,
    ⟨["information", "about", "help"], false, "info_dialog", 7/10⟩,
    ⟨["close", "dismiss"], false, "info_dialog", 5/10⟩ ]

/-- System-alert patterns, from
`ErrorModalDetector::compile_system_alert_patterns`
(error_modal_detector.rs:777-807), alternations expanded. -/
def system_alert_patterns : List CompiledPattern :=
  [ ⟨["system alert", "system notification"], false, "system_alert", 9/10⟩,
    ⟨["would like to access", "permission required"], false, "system_alert", 85/100⟩,
    ⟨["security warning", "security alert"], false, "system_alert", 9/10⟩,
    ⟨["application error", "application warning", "app crashed", "app stopped"], false,
      "app_alert", 8/10⟩,
    ⟨["update available", "new version"], false, "app_alert", 7/10⟩ ]

/-- Accumulator of the pattern-scanning loops in
`ErrorModalDetector::analyze_text_for_errors_modals`
(error_modal_detector.rs:288-389). -/
structure PatternScanState where
  matchCount : ℕ
  totalConfidence : ℚ
  eventType : Option ErrorModalType
  severity : SeverityLevel

/-- Event type and severity assigned per error-pattern family
(error_modal_detector.rs:307-332). -/
def errorPatternTypeSeverity (pt : String) : ErrorModalType × SeverityLevel :=
  if pt = "critical_error" then (ErrorModalType.SystemError, SeverityLevel.Critical)
  else if pt = "network_error" then (ErrorModalType.NetworkError, SeverityLevel.High)
  else if pt = "auth_error" then (ErrorModalType.AuthError, SeverityLevel.High)
  else if pt = "validation_error" then (ErrorModalType.ValidationError, SeverityLevel.Medium)
  else if pt = "warning" then (ErrorModalType.Warning, SeverityLevel.Medium)
  else (ErrorModalType.ApplicationError, SeverityLevel.Medium)

/-- Event type and severity assigned per modal-pattern family
(error_modal_detector.rs:349-370). -/
def modalPatternTypeSeverity (pt : String) : ErrorModalType × SeverityLevel :=
  if pt = "confirmation_dialog" then (ErrorModalType.ConfirmationDialog, SeverityLevel.Info)
  else if pt = "file_dialog" then (ErrorModalType.FileDialog, SeverityLevel.Info)
  else if pt = "settings_dialog" then (ErrorModalType.SettingsDialog, SeverityLevel.Info)
  else if pt = "progress_dialog" then (ErrorModalType.ProgressDialog, SeverityLevel.Info)
  else (ErrorModalType.InfoDialog, SeverityLevel.Info)

/-- One step of an error-, modal- or alert-pattern scanning loop: on a match,
record the weight and overwrite the event type and severity with the values
`assign` gives for the pattern family. -/
def scanPatternStep (assign : String → ErrorModalType × SeverityLevel)
    (lowered : List Char) (st : PatternScanState) (p : CompiledPattern) :
    PatternScanState :=
  if patternMatches p lowered then
    { matchCount := st.matchCount + 1
      totalConfidence := st.totalConfidence + p.confidence_weight
      eventType := some (assign p.pattern_type).1
      severity := (assign p.pattern_type).2 }
  else st

/-- A detected error or modal, from `error_modal_detector.rs`
(`ErrorModalEvent`), restricted to the fields the claims inspect. -/
structure ErrorModalEvent where
  event_type : ErrorModalType
  severity : SeverityLevel
  message : String
  confidence : ℚ
deriving DecidableEq, Repr

/-- Embeds `ErrorModalDetector::analyze_text_for_errors_modals`
(error_modal_detector.rs:280-448): scan the error, modal and system-alert
pattern tables in order (later matches overwrite the event type and
severity), average the matched weights, blend with the OCR confidence and
gate on the per-family minimum. -/
def analyze_text_for_errors_modals (cfg : ErrorModalDetectionConfig)
    (r : OCRResult) : Option ErrorModalEvent :=
  let lowered := r.text.toList.map Char.toLower
  let st0 : PatternScanState := ⟨0, 0, none, SeverityLevel.Info⟩
  let st1 := error_patterns.foldl (scanPatternStep errorPatternTypeSeverity lowered) st0
  let st2 := modal_patterns.foldl (scanPatternStep modalPatternTypeSeverity lowered) st1
  let st3 := system_alert_patterns.foldl
    (scanPatternStep (fun _ => (ErrorModalType.AlertDialog, SeverityLevel.High)) lowered) st2
  if st3.matchCount = 0 then none
  else
    let base_confidence := min (st3.totalConfidence / (st3.matchCount : ℚ)) 1
    let final_confidence := min (base_confidence * (7/10) + r.confidence * (3/10)) 1
    let min_confidence :=
      match st3.eventType with
      | some ErrorModalType.SystemError => cfg.min_error_confidence
      | some ErrorModalType.NetworkError => cfg.min_error_confidence
      | some ErrorModalType.AuthError => cfg.min_error_confidence
      | _ => cfg.min_modal_confidence
    if final_confidence < min_confidence then none
    else some
      { event_type := st3.eventType.getD ErrorModalType.CustomDialog
        severity := st3.severity
        message := r.text
        confidence := final_confidence }

/-- Layout analysis result, from `error_modal_detector.rs`
(`LayoutAnalysis`), restricted to the fields the detection path uses. -/
structure LayoutAnalysis where
  is_dialog_layout : Bool
  is_centered : Bool
  layout_confidence : ℚ
deriving DecidableEq, Repr

/-- Embeds `DialogLayoutAnalyzer::analyze_layout`
(error_modal_detector.rs:816-880): size, centering, aspect-ratio and margin
checks accumulate into a confidence score; a dialog layout is one scoring at
least 0.6. -/
def analyze_layout (cfg : ErrorModalDetectionConfig) (roi : BoundingBox)
    (screen_width screen_height : ℚ) : LayoutAnalysis :=
  let dialog_width := roi.width
  let dialog_height := roi.height
  let size_ok := cfg.min_dialog_width ≤ dialog_width
    ∧ cfg.min_dialog_height ≤ dialog_height
    ∧ dialog_width ≤ screen_width * cfg.max_dialog_width_ratio
    ∧ dialog_height ≤ screen_height * cfg.max_dialog_height_ratio
  let center_x := roi.x + roi.width / 2
  let center_y := roi.y + roi.height / 2
  let is_centered := |center_x - screen_width / 2| ≤ screen_width * (2/10)
    ∧ |center_y - screen_height / 2| ≤ screen_height * (2/10)
  let aspect_ratio := dialog_width / dialog_height
  let aspect_ok := 8/10 ≤ aspect_ratio ∧ aspect_ratio ≤ 3
  let margin_ok := 50 < roi.x ∧ 50 < roi.y
    ∧ roi.x + roi.width < screen_width - 50
    ∧ roi.y + roi.height < screen_height - 50
  let confidence := (if size_ok then (4:ℚ)/10 else 0)
    + (if is_centered then (3:ℚ)/10 else 0)
    + (if aspect_ok then (2:ℚ)/10 else 0)
    + (if margin_ok then (1:ℚ)/10 else 0)
  { is_dialog_layout := decide (confidence ≥ 6/10)
    is_centered := decide is_centered
    layout_confidence := confidence }

/-- Squared center distance of two ROIs.  The source
(`ErrorModalDetector::calculate_spatial_distance`,
error_modal_detector.rs:556-566) takes the square root and compares with
100; over ℚ the equivalent comparison of the square with 10000 is used. -/
def spatialDistanceSq (b1 b2 : BoundingBox) : ℚ :=
  let dx := (b1.x + b1.width / 2) - (b2.x + b2.width / 2)
  let dy := (b1.y + b1.height / 2) - (b2.y + b2.height / 2)
  dx * dx + dy * dy

/-- Embeds `ErrorModalDetector::group_by_spatial_proximity`
(error_modal_detector.rs:519-553): each unused result seeds a group and
claims every later unused result whose center lies within 100 px of the
seed's center. -/
def group_by_spatial_proximity : List OCRResult → List (List OCRResult)
  | [] => []
  | seed :: rest =>
    let near := rest.filter (fun r => spatialDistanceSq seed.roi r.roi < 10000)
    let far := rest.filter (fun r => ¬ spatialDistanceSq seed.roi r.roi < 10000)
    (seed :: near) :: group_by_spatial_proximity far
termination_by l => l.length
decreasing_by
  simp only [List.length_cons]
  exact Nat.lt_succ_of_le (List.length_filter_le _ _)

/-- Embeds `ErrorModalDetector::calculate_group_bounding_box`
(error_modal_detector.rs:569-597): the enclosing box of a group's ROIs. -/
def calculate_group_bounding_box : List OCRResult → BoundingBox
  | [] => ⟨0, 0, 0, 0⟩
  | g :: gs =>
    let f := fun (acc : ℚ × ℚ × ℚ × ℚ) (r : OCRResult) =>
      (min acc.1 r.roi.x, min acc.2.1 r.roi.y,
       max acc.2.2.1 (r.roi.x + r.roi.width), max acc.2.2.2 (r.roi.y + r.roi.height))
    let res := gs.foldl f (g.roi.x, g.roi.y, g.roi.x + g.roi.width, g.roi.y + g.roi.height)
    ⟨res.1, res.2.1, res.2.2.1 - res.1, res.2.2.2 - res.2.1⟩

/-- Embeds `ErrorModalDetector::classify_dialog_by_content`
(error_modal_detector.rs:600-633): ordered keyword lookup on the lowercased
combined text. -/
def classify_dialog_by_content (text : String) : ErrorModalType :=
  let lowered := text.toList.map Char.toLower
  let has := fun (s : String) => containsSubList s.toList lowered
  if has "save" || has "open" || has "file" then ErrorModalType.FileDialog
  else if has "settings" || has "preferences" || has "options" then
    ErrorModalType.SettingsDialog
  else if has "progress" || has "loading" || has "%" then ErrorModalType.ProgressDialog
  else if has "confirm" || has "are you sure" then ErrorModalType.ConfirmationDialog
  else if has "error" || has "failed" || has "invalid" then ErrorModalType.ApplicationError
  else if has "warning" || has "caution" then ErrorModalType.Warning
  else if has "alert" || has "attention" then ErrorModalType.AlertDialog
  else ErrorModalType.InfoDialog

/-- Embeds `ErrorModalDetector::determine_severity_by_content`
(error_modal_detector.rs:636-656): the content lexicon for severity. -/
def determine_severity_by_content (text : String) : SeverityLevel :=
  let lowered := text.toList.map Char.toLower
  let has := fun (s : String) => containsSubList s.toList lowered
  if has "critical" || has "fatal" || has "crash" then SeverityLevel.Critical
  else if has "error" || has "failed" || has "denied" then SeverityLevel.High
  else if has "warning" || has "caution" || has "invalid" then SeverityLevel.Medium
  else if has "notice" || has "attention" then SeverityLevel.Low
  else SeverityLevel.Info

/-- Embeds `ErrorModalDetector::detect_dialog_layouts`
(error_modal_detector.rs:451-516): groups of at least two nearby ROIs whose
enclosing box scores as a dialog emit one event classified by content. -/
def detect_dialog_layouts (cfg : ErrorModalDetectionConfig)
    (kept : List OCRResult) (screen_width screen_height : ℚ) :
    List ErrorModalEvent :=
  (group_by_spatial_proximity kept).filterMap (fun group =>
    if group.length < 2 then none
    else
      let group_bbox := calculate_group_bounding_box group
      let la := analyze_layout cfg group_bbox screen_width screen_height
      if la.is_dialog_layout ∧ la.layout_confidence ≥ 6/10 then
        let combined_text := String.intercalate " " (group.map OCRResult.text)
        some
          { event_type := classify_dialog_by_content combined_text
            severity := determine_severity_by_content combined_text
            message := combined_text
            confidence := la.layout_confidence }
      else none)

/-- Embeds `ErrorModalDetector::detect_errors_and_modals`
(error_modal_detector.rs:224-277): filter by OCR confidence, analyze each
kept result for patterns, append layout-based dialog events when enabled
(`group_related_elements` returns its input unchanged). -/
def detect_errors_and_modals (cfg : ErrorModalDetectionConfig)
    (ocr_results : List OCRResult) (screen_width screen_height : ℚ) :
    List ErrorModalEvent :=
  let kept := ocr_results.filter (fun r => cfg.min_ocr_confidence ≤ r.confidence)
  if kept.isEmpty then []
  else
    let events := kept.filterMap (analyze_text_for_errors_modals cfg)
    if cfg.enable_layout_detection then
      events ++ detect_dialog_layouts cfg kept screen_width screen_height
    else events

/-- A concrete cipher satisfying the AEAD contract, used to instantiate the
abstract scheme on concrete inputs: encryption tags the plaintext with the
key, decryption checks the key. -/
def toyAead : AeadScheme ℕ :=
  { enc := fun k _ p => k :: p
    dec := fun k _ c =>
      match c with
      | [] => none
      | k0 :: p => if k0 = k then some p else none }

/-!  Theorems.  -/

theorem leVal8_u64le (n : ℕ) (h : n < 2 ^ 64) : leVal8 (u64le n) = n := by
  simp only [u64le, leVal8]
  omega

theorem u64le_length (n : ℕ) : (u64le n).length = 8 := rfl

theorem readLen_u64le (n : ℕ) (rest : List ℕ) (h : n < 2 ^ 64) :
    readLen (u64le n ++ rest) = some (n, rest) := by
  unfold readLen
  rw [if_pos]
  · rw [show (8 : ℕ) = (u64le n).length from rfl, List.take_left, List.drop_left,
      leVal8_u64le n h]
  · rw [List.length_append, u64le_length]; omega

theorem readBytes_exact (l rest : List ℕ) : readBytes l.length (l ++ rest) = some (l, rest) := by
  unfold readBytes
  rw [if_pos]
  · rw [List.take_left, List.drop_left]
  · rw [List.length_append]; omega

theorem readBytes_self (l : List ℕ) : readBytes l.length l = some (l, []) := by
  have h := readBytes_exact l []
  rwa [List.append_nil] at h

theorem deserialize_serialize (nonce ciphertext : List ℕ)
    (hn : nonce.length < 2 ^ 64) (hc : ciphertext.length < 2 ^ 64) :
    deserializeEncryptedData (serializeEncryptedData nonce ciphertext) =
      some (nonce, ciphertext) := by
  unfold serializeEncryptedData deserializeEncryptedData
  rw [List.append_assoc (u64le nonce.length), List.append_assoc (u64le nonce.length)]
  simp only [readLen_u64le nonce.length _ hn, List.append_assoc nonce,
    readBytes_exact nonce, readLen_u64le ciphertext.length _ hc, readBytes_self]

/-- C9: scene-change classification applies the spec's ordered rules with
first match winning: `classify_scene_change` agrees with the rule chain
Cut, ContentChange, Fade, Motion, ContentChange, no-emission for every
signal triple and every threshold configuration. -/
theorem classify_scene_change_matches_spec_order (cfg : SceneDetectionConfig)
    (ssim_score : ℚ) (phash_distance : ℕ) (entropy_delta : ℚ) :
    classify_scene_change cfg ssim_score phash_distance entropy_delta =
      specClassifyOrdered cfg ssim_score phash_distance entropy_delta := by
  unfold classify_scene_change specClassifyOrdered
  rw [Nat.mul_comm cfg.phash_distance_threshold 2, mul_comm cfg.entropy_threshold 2]
  by_cases h1 : ssim_score < cfg.ssim_threshold <;>
    by_cases h2 : phash_distance > 2 * cfg.phash_distance_threshold <;>
      by_cases h3 : entropy_delta > 2 * cfg.entropy_threshold <;>
        simp [h1, h2, h3]

/-- C1 counterexample: at the signal triple (ssim 0, phash distance 32,
entropy delta 4) the scene classifier emits a change, yet the emitted
confidence `calculate_confidence` differs from the spec's formula
(`specConfidenceFormula` gives 1, the code gives 3/4). -/
theorem scene_confidence_spec_counterexample :
    (classify_scene_change SceneDetectionConfig.default 0 32 4).isSome = true ∧
    calculate_confidence 0 32 4 ≠ specConfidenceFormula 0 32 4 := by
  refine ⟨by with_unfolding_all rfl, ?_⟩
  have h1 : calculate_confidence 0 32 4 = 3/4 := by with_unfolding_all rfl
  have h2 : specConfidenceFormula 0 32 4 = 1 := by with_unfolding_all rfl
  rw [h1, h2]
  norm_num

/-- C1 amended: every scene change the detector emits carries confidence
`min(0.5·(1−ssim) + 0.3·min(phash/64, 1) + 0.2·min(entropy_delta/8, 1), 1)`,
with no boost factor. -/
theorem scene_change_confidence_formula (cfg : SceneDetectionConfig)
    (signals : List (ℚ × ℕ × ℚ)) (sc : SceneChange)
    (hmem : sc ∈ sceneChangesFromSignals cfg signals) :
    sc.confidence = min ((1 - sc.ssim_score) * (1/2)
      + min ((sc.phash_distance : ℚ) / 64) 1 * (3/10)
      + min (sc.entropy_delta / 8) 1 * (1/5)) 1 := by
  unfold sceneChangesFromSignals at hmem
  rw [List.mem_filterMap] at hmem
  obtain ⟨p, _, heq⟩ := hmem
  cases hcl : classify_scene_change cfg p.2.1 p.2.2.1 p.2.2.2 with
  | none => rw [hcl] at heq; exact absurd heq (by simp)
  | some t =>
    rw [hcl] at heq
    simp only [Option.some.injEq] at heq
    rw [← heq]
    rfl

/-- Witness for the amended C1 theorem at the concrete signal list
[(0, 32, 4)] under default thresholds. -/
theorem scene_change_confidence_formula_witness :
    (⟨1, SceneChangeType.Cut, 3/4, 0, 32, 4⟩ : SceneChange) ∈
      sceneChangesFromSignals SceneDetectionConfig.default [(0, 32, 4)] ∧
    (⟨1, SceneChangeType.Cut, 3/4, 0, 32, 4⟩ : SceneChange).confidence =
      min ((1 - (0:ℚ)) * (1/2) + min (((32:ℕ) : ℚ) / 64) 1 * (3/10)
        + min ((4:ℚ) / 8) 1 * (1/5)) 1 := by
  have hlist : sceneChangesFromSignals SceneDetectionConfig.default [(0, 32, 4)] =
      [⟨1, SceneChangeType.Cut, 3/4, 0, 32, 4⟩] := by with_unfolding_all rfl
  have hmem : (⟨1, SceneChangeType.Cut, 3/4, 0, 32, 4⟩ : SceneChange) ∈
      sceneChangesFromSignals SceneDetectionConfig.default [(0, 32, 4)] := by
    rw [hlist]; exact List.mem_singleton.mpr rfl
  exact ⟨hmem,
    scene_change_confidence_formula SceneDetectionConfig.default [(0, 32, 4)] _ hmem⟩

/-- C10: with a 10 fps source and the valid extraction rate 30 fps the
rounded frame interval is 0, and the extraction loop's selection step
`frame_count % frame_interval` divides by zero on the first decoded frame
(modelled as `none`, the aborting outcome). -/
theorem frame_interval_zero_division_eval :
    frameInterval 10 30 = 0 ∧ frameSelectionStep 0 (frameInterval 10 30) = none := by
  have h : frameInterval 10 30 = 0 := by with_unfolding_all rfl
  refine ⟨h, ?_⟩
  rw [h]
  with_unfolding_all rfl

/-- C8 counterexample: the zero-sized box does not have IoU 1 with itself;
the union area is 0, so `BoundingBox::iou` returns 0. -/
theorem iou_self_zero_box_counterexample :
    BoundingBox.iou ⟨0, 0, 0, 0⟩ ⟨0, 0, 0, 0⟩ ≠ 1 := by
  have h : BoundingBox.iou ⟨0, 0, 0, 0⟩ ⟨0, 0, 0, 0⟩ = 0 := by with_unfolding_all rfl
  rw [h]
  norm_num

/-- C8 amended: every box of positive width and height has IoU 1 with
itself; non-intersecting boxes have IoU 0; and for boxes of nonnegative
width and height the IoU lies in [0, 1]. -/
theorem iou_bounds_amended :
    (∀ b : BoundingBox, 0 < b.width → 0 < b.height → b.iou b = 1) ∧
    (∀ b1 b2 : BoundingBox, ¬ b1.intersects b2 → b1.iou b2 = 0) ∧
    (∀ b1 b2 : BoundingBox, 0 ≤ b1.width → 0 ≤ b1.height → 0 ≤ b2.width →
      0 ≤ b2.height → 0 ≤ b1.iou b2 ∧ b1.iou b2 ≤ 1) := by
  refine ⟨?_, ?_, ?_⟩
  · intro b hw hh
    have hint : b.intersects b := by
      unfold BoundingBox.intersects
      intro hor
      rcases hor with h | h | h | h <;> linarith
    have hiw : b.intersectionWidth b = b.width := by
      unfold BoundingBox.intersectionWidth
      rw [min_self, max_self]
      ring
    have hih : b.intersectionHeight b = b.height := by
      unfold BoundingBox.intersectionHeight
      rw [min_self, max_self]
      ring
    have hia : b.intersectionArea b = b.width * b.height := by
      unfold BoundingBox.intersectionArea
      rw [hiw, hih]
    have hua : b.unionArea b = b.width * b.height := by
      unfold BoundingBox.unionArea BoundingBox.area
      rw [hia]
      ring
    have hpos : 0 < b.width * b.height := mul_pos hw hh
    unfold BoundingBox.iou
    rw [if_neg (not_not_intro hint), hua, hia, if_pos hpos]
    exact div_self (ne_of_gt hpos)
  · intro b1 b2 h
    unfold BoundingBox.iou
    rw [if_pos h]
  · intro b1 b2 hw1 hh1 hw2 hh2
    by_cases hint : b1.intersects b2
    · have hsep := hint
      unfold BoundingBox.intersects at hsep
      push_neg at hsep
      obtain ⟨h1, h2, h3, h4⟩ := hsep
      have iw0 : 0 ≤ b1.intersectionWidth b2 := by
        unfold BoundingBox.intersectionWidth
        rw [sub_nonneg]
        apply max_le <;> apply le_min <;> linarith
      have ih0 : 0 ≤ b1.intersectionHeight b2 := by
        unfold BoundingBox.intersectionHeight
        rw [sub_nonneg]
        apply max_le <;> apply le_min <;> linarith
      have iwle1 : b1.intersectionWidth b2 ≤ b1.width := by
        unfold BoundingBox.intersectionWidth
        have ha := min_le_left (b1.x + b1.width) (b2.x + b2.width)
        have hb := le_max_left b1.x b2.x
        linarith
      have iwle2 : b1.intersectionWidth b2 ≤ b2.width := by
        unfold BoundingBox.intersectionWidth
        have ha := min_le_right (b1.x + b1.width) (b2.x + b2.width)
        have hb := le_max_right b1.x b2.x
        linarith
      have ihle1 : b1.intersectionHeight b2 ≤ b1.height := by
        unfold BoundingBox.intersectionHeight
        have ha := min_le_left (b1.y + b1.height) (b2.y + b2.height)
        have hb := le_max_left b1.y b2.y
        linarith
      have ihle2 : b1.intersectionHeight b2 ≤ b2.height := by
        unfold BoundingBox.intersectionHeight
        have ha := min_le_right (b1.y + b1.height) (b2.y + b2.height)
        have hb := le_max_right b1.y b2.y
        linarith
      have ia0 : 0 ≤ b1.intersectionArea b2 := mul_nonneg iw0 ih0
      have ia1 : b1.intersectionArea b2 ≤ b1.area :=
        mul_le_mul iwle1 ihle1 ih0 hw1
      have ia2 : b1.intersectionArea b2 ≤ b2.area :=
        mul_le_mul iwle2 ihle2 ih0 hw2
      unfold BoundingBox.iou
      rw [if_neg (not_not_intro hint)]
      by_cases hu : b1.unionArea b2 > 0
      · rw [if_pos hu]
        refine ⟨div_nonneg ia0 hu.le, ?_⟩
        rw [div_le_one hu]
        unfold BoundingBox.unionArea
        linarith
      · rw [if_neg hu]
        exact ⟨le_refl 0, zero_le_one⟩
    · unfold BoundingBox.iou
      rw [if_pos hint]
      exact ⟨le_refl 0, zero_le_one⟩

/-- Witness for the amended C8 theorem at concrete boxes. -/
theorem iou_bounds_amended_witness :
    BoundingBox.iou ⟨0, 0, 10, 10⟩ ⟨0, 0, 10, 10⟩ = 1 ∧
    BoundingBox.iou ⟨0, 0, 1, 1⟩ ⟨5, 5, 1, 1⟩ = 0 ∧
    (0 ≤ BoundingBox.iou ⟨0, 0, 2, 2⟩ ⟨1, 1, 2, 2⟩ ∧
      BoundingBox.iou ⟨0, 0, 2, 2⟩ ⟨1, 1, 2, 2⟩ ≤ 1) := by
  refine ⟨iou_bounds_amended.1 _ (by norm_num) (by norm_num),
    iou_bounds_amended.2.1 _ _ ?_,
    iou_bounds_amended.2.2 _ _ (by norm_num) (by norm_num) (by norm_num) (by norm_num)⟩
  unfold BoundingBox.intersects
  norm_num

/-- C2 counterexample: with two frames cached (insertion order f1 then f2),
the comparison partner `values().next()` depends on the map's iteration
order: the identity view and the swapped view are both permutations of the
cache, yet they yield different partners, and the identity view's partner is
not the most recently cached frame (f2).  Hence the partner, and with it the
emitted `value_from`, is not a function of the input alone. -/
theorem previous_frame_partner_counterexample :
    ([⟨"f2", 2⟩, ⟨"f1", 1⟩] : List (CachedFrame ℕ)).Perm [⟨"f1", 1⟩, ⟨"f2", 2⟩] ∧
    get_previous_frame_results ([⟨"f1", 1⟩, ⟨"f2", 2⟩] : List (CachedFrame ℕ)) ≠
      get_previous_frame_results [⟨"f2", 2⟩, ⟨"f1", 1⟩] ∧
    get_previous_frame_results ([⟨"f1", 1⟩, ⟨"f2", 2⟩] : List (CachedFrame ℕ)) ≠
      specMostRecentCached [⟨"f1", 1⟩, ⟨"f2", 2⟩] := by
  refine ⟨List.Perm.swap _ _ _, ?_, ?_⟩ <;> decide

/-- C2 amended: `generate_field_id` is a deterministic function of the
integer-truncated ROI alone, while the delta comparison partner is merely
some element of the frame cache (whichever the map's iteration order puts
first), not necessarily the most recently cached frame. -/
theorem field_id_deterministic_partner_in_cache :
    (∀ r1 r2 : BoundingBox,
        ratTrunc r1.x = ratTrunc r2.x → ratTrunc r1.y = ratTrunc r2.y →
        ratTrunc r1.width = ratTrunc r2.width →
        ratTrunc r1.height = ratTrunc r2.height →
        generate_field_id r1 = generate_field_id r2) ∧
    (∀ (V : Type) (iterView cache : List (CachedFrame V)) (v : CachedFrame V),
        iterView.Perm cache → get_previous_frame_results iterView = some v →
        v ∈ cache) := by
  constructor
  · intro r1 r2 h1 h2 h3 h4
    unfold generate_field_id
    rw [h1, h2, h3, h4]
  · intro V iterView cache v hperm hhead
    apply hperm.subset
    unfold get_previous_frame_results at hhead
    cases iterView with
    | nil => exact absurd hhead (by simp)
    | cons a t =>
      simp only [List.head?_cons, Option.some.injEq] at hhead
      rw [← hhead]
      exact List.mem_cons_self a t

/-- Witness for the amended C2 theorem: two ROIs equal after integer
truncation give the same field id, and the head of an iteration view is an
element of the cache. -/
theorem field_id_deterministic_partner_in_cache_witness :
    generate_field_id ⟨10/2, 21/10, 3, 4⟩ = generate_field_id ⟨5, 2, 3, 4⟩ ∧
    (⟨"g1", 7⟩ : CachedFrame ℕ) ∈ ([⟨"g1", 7⟩, ⟨"g2", 8⟩] : List (CachedFrame ℕ)) := by
  refine ⟨field_id_deterministic_partner_in_cache.1 _ _ ?_ ?_ ?_ ?_,
    field_id_deterministic_partner_in_cache.2 ℕ [⟨"g1", 7⟩, ⟨"g2", 8⟩]
      [⟨"g1", 7⟩, ⟨"g2", 8⟩] _ (List.Perm.refl _) rfl⟩ <;> with_unfolding_all rfl

/-- C3: on the single OCR record "Fatal error: System crash detected" at
confidence 0.95 the detector emits exactly one event, and it maps to the
`ErrorDisplay` kind — but its severity is Medium, not Critical: the generic
application-error pattern matches after the critical pattern and overwrites
the severity. -/
theorem fatal_crash_severity_eval :
    detect_errors_and_modals ErrorModalDetectionConfig.default
        [⟨"Fatal error: System crash detected", ⟨100, 100, 400, 50⟩, 95/100⟩] 1920 1080 =
      [{ event_type := ErrorModalType.ApplicationError
         severity := SeverityLevel.Medium
         message := "Fatal error: System crash detected"
         confidence := 81/100 }] ∧
    convert_error_modal_type ErrorModalType.ApplicationError = EventType.ErrorDisplay ∧
    SeverityLevel.Medium ≠ SeverityLevel.Critical := by
  refine ⟨by with_unfolding_all rfl, rfl, by decide⟩

/-- A ten-entry frame cache in insertion order, "f01" the earliest. -/
def tenFrameCache : List (CachedFrame ℕ) :=
  [⟨"f01", 1⟩, ⟨"f02", 2⟩, ⟨"f03", 3⟩, ⟨"f04", 4⟩, ⟨"f05", 5⟩,
   ⟨"f06", 6⟩, ⟨"f07", 7⟩, ⟨"f08", 8⟩, ⟨"f09", 9⟩, ⟨"f10", 10⟩]

/-- A legitimate `HashMap` key-iteration order for `tenFrameCache` that puts
"f02" first. -/
def tenFrameIterKeys : List String :=
  ["f02", "f01", "f03", "f04", "f05", "f06", "f07", "f08", "f09", "f10"]

/-- C4: the cache is bounded at 10 entries, but eviction is not FIFO: under
the iteration order `tenFrameIterKeys` (a permutation of the cached keys,
admissible for a `HashMap`), inserting an 11th frame evicts "f02" while the
earliest-inserted frame "f01" stays. -/
theorem cache_eviction_not_fifo_eval :
    tenFrameIterKeys.Perm (tenFrameCache.map CachedFrame.frameId) ∧
    (cache_frame_results tenFrameCache tenFrameIterKeys "f11" 11).map
        CachedFrame.frameId =
      ["f01", "f03", "f04", "f05", "f06", "f07", "f08", "f09", "f10", "f11"] ∧
    (cache_frame_results tenFrameCache tenFrameIterKeys "f11" 11).length = 10 := by
  refine ⟨by decide, by decide, by decide⟩

/-- C5 counterexample: `add_event` appends without sorting, so inserting
timestamp 100 then timestamp 50 leaves the buffer unsorted; and the age
eviction only strips a stale prefix, so a stale event (timestamp 0, older
than the 2000 ms window at current time 3000) behind a fresh front event is
retained. -/
theorem correlator_buffer_counterexample :
    add_event (add_event [] ⟨1, 100⟩) ⟨2, 50⟩ = [⟨1, 100⟩, ⟨2, 50⟩] ∧
    ¬ List.Sorted (fun a b : CorrelationEvent => a.timestampMs ≤ b.timestampMs)
        [⟨1, 100⟩, ⟨2, 50⟩] ∧
    clean_old_events [⟨1, 3000⟩, ⟨2, 0⟩] 3000 2000 = [⟨1, 3000⟩, ⟨2, 0⟩] ∧
    (⟨2, 0⟩ : CorrelationEvent).timestampMs < 3000 - 2000 := by
  refine ⟨by decide, ?_, by decide, by decide⟩
  intro h
  rw [List.sorted_cons] at h
  have hle := h.1 ⟨2, 50⟩ (List.mem_singleton.mpr rfl)
  revert hle
  decide

theorem clean_old_events_fresh_of_sorted (currentMs windowMs : ℤ) :
    ∀ buffer : List CorrelationEvent,
      List.Sorted (fun a b : CorrelationEvent => a.timestampMs ≤ b.timestampMs) buffer →
      ∀ ev ∈ clean_old_events buffer currentMs windowMs,
        currentMs - windowMs ≤ ev.timestampMs := by
  intro buffer
  induction buffer with
  | nil => intro _ ev h; exact absurd h (by simp [clean_old_events])
  | cons a t ih =>
    intro hs ev hmem
    rw [List.sorted_cons] at hs
    unfold clean_old_events at hmem
    rw [List.dropWhile_cons] at hmem
    by_cases hp : a.timestampMs < currentMs - windowMs
    · rw [if_pos (by simpa using hp)] at hmem
      exact ih hs.2 ev hmem
    · rw [if_neg (by simpa using hp)] at hmem
      rcases List.mem_cons.mp hmem with h | h
      · rw [h]; omega
      · have := hs.1 ev h
        omega

/-- C5 amended: after every insertion the buffer holds at most 1000 events
and events stay in arrival order (the buffer after insertion is a suffix of
the old buffer with the new event appended — no sorting happens); the age
eviction at analysis time removes the stale prefix, which covers every stale
event exactly when the buffer is sorted by timestamp. -/
theorem correlator_buffer_bound_and_eviction :
    (∀ (buffer : List CorrelationEvent) (e : CorrelationEvent),
        (add_event buffer e).length ≤ maxBufferSize) ∧
    (∀ (buffer : List CorrelationEvent) (e : CorrelationEvent),
        (add_event buffer e).IsSuffix (buffer ++ [e])) ∧
    (∀ (buffer : List CorrelationEvent) (currentMs windowMs : ℤ),
        List.Sorted (fun a b : CorrelationEvent => a.timestampMs ≤ b.timestampMs)
          buffer →
        ∀ ev ∈ clean_old_events buffer currentMs windowMs,
          currentMs - windowMs ≤ ev.timestampMs) := by
  refine ⟨?_, ?_, ?_⟩
  · intro buffer e
    unfold add_event maxBufferSize
    rw [List.length_drop]
    omega
  · intro buffer e
    exact List.drop_suffix _ _
  · intro buffer currentMs windowMs hs ev hmem
    exact clean_old_events_fresh_of_sorted currentMs windowMs buffer hs ev hmem

/-- Witness for the amended C5 theorem at concrete buffers. -/
theorem correlator_buffer_bound_and_eviction_witness :
    (add_event [] ⟨1, 5⟩).length ≤ maxBufferSize ∧
    (add_event [] ⟨1, 5⟩).IsSuffix ([] ++ [⟨1, 5⟩]) ∧
    1000 - 995 ≤ (⟨1, 10⟩ : CorrelationEvent).timestampMs := by
  refine ⟨correlator_buffer_bound_and_eviction.1 [] _,
    correlator_buffer_bound_and_eviction.2.1 [] _,
    correlator_buffer_bound_and_eviction.2.2 [⟨1, 10⟩, ⟨2, 20⟩] 1000 995 ?_ ⟨1, 10⟩ ?_⟩
  · rw [List.sorted_cons]
    refine ⟨?_, ?_⟩
    · intro b hb
      rw [List.mem_singleton.mp hb]
      decide
    · simp [List.sorted_cons]
  · decide

theorem nonce_of_serialize (nonce ciphertext : List ℕ) (h : nonce.length = 12) :
    ((serializeEncryptedData nonce ciphertext).drop 8).take 12 = nonce := by
  unfold serializeEncryptedData
  rw [List.append_assoc (u64le nonce.length), List.append_assoc (u64le nonce.length)]
  rw [show (8 : ℕ) = (u64le nonce.length).length from rfl, List.drop_left]
  rw [List.append_assoc nonce, ← h, List.take_left]

/-- C6: for any cipher meeting the AEAD contract, (a) the manager's
decrypt of its encrypt returns the plaintext for every plaintext and every
96-bit (12-byte) nonce; (b) encryptions of the same plaintext under two
distinct fresh nonces give distinct ciphertexts; (c) decryption under a key
whose AEAD decryption rejects the encrypting key's output fails. -/
theorem encryption_manager_properties {K : Type} (a : AeadScheme K) :
    (∀ (k : K) (nonce p : List ℕ), nonce.length = 12 →
        (a.enc k nonce p).length < 2 ^ 64 →
        (∀ n q, a.dec k n (a.enc k n q) = some q) →
        EncryptionManager.decrypt a k (EncryptionManager.encrypt a k nonce p) =
          some p) ∧
    (∀ (k : K) (p n1 n2 : List ℕ), n1.length = 12 → n2.length = 12 → n1 ≠ n2 →
        EncryptionManager.encrypt a k n1 p ≠ EncryptionManager.encrypt a k n2 p) ∧
    (∀ (k k2 : K) (nonce p : List ℕ), nonce.length = 12 →
        (a.enc k nonce p).length < 2 ^ 64 →
        (∀ n q, a.dec k2 n (a.enc k n q) = none) →
        EncryptionManager.decrypt a k2 (EncryptionManager.encrypt a k nonce p) =
          none) := by
  refine ⟨?_, ?_, ?_⟩
  · intro k nonce p hn hl hrt
    unfold EncryptionManager.encrypt EncryptionManager.decrypt
    rw [deserialize_serialize _ _ (by rw [hn]; norm_num) hl]
    exact hrt nonce p
  · intro k p n1 n2 h1 h2 hne heq
    unfold EncryptionManager.encrypt at heq
    have hq := congrArg (fun l => (l.drop 8).take 12) heq
    simp only at hq
    rw [nonce_of_serialize _ _ h1, nonce_of_serialize _ _ h2] at hq
    exact hne hq
  · intro k k2 nonce p hn hl hkf
    unfold EncryptionManager.encrypt EncryptionManager.decrypt
    rw [deserialize_serialize _ _ (by rw [hn]; norm_num) hl]
    exact hkf nonce p

/-- Witness for the C6 theorem: the concrete key-tagging cipher `toyAead`
satisfies the AEAD contract, and the three properties hold at concrete
nonces, keys and plaintexts. -/
theorem encryption_manager_properties_witness :
    EncryptionManager.decrypt toyAead 3
        (EncryptionManager.encrypt toyAead 3 (List.replicate 12 0) [9, 9]) =
      some [9, 9] ∧
    EncryptionManager.encrypt toyAead 3 (List.replicate 12 0) [9, 9] ≠
      EncryptionManager.encrypt toyAead 3 (0 :: List.replicate 11 1) [9, 9] ∧
    EncryptionManager.decrypt toyAead 4
        (EncryptionManager.encrypt toyAead 3 (List.replicate 12 0) [9, 9]) =
      none := by
  refine ⟨(encryption_manager_properties toyAead).1 3 _ _ (by decide) (by decide)
      (fun n q => by simp [toyAead]),
    (encryption_manager_properties toyAead).2.1 3 [9, 9] _ _ (by decide) (by decide)
      (by decide),
    (encryption_manager_properties toyAead).2.2 3 4 _ _ (by decide) (by decide)
      (fun n q => by simp [toyAead])⟩

/-- C7: a failed flush (record-batch construction error or write error)
leaves the writer state, and hence the in-flight batch, unchanged; a
successful flush leaves the batch empty — the batch is cleared only after a
successful write. -/
theorem flush_batch_retention {Row RB E : Type}
    (create_record_batch : List Row → Except E RB)
    (write_record_batch : RB → Except E Unit) :
    (∀ (st st2 : WriterState Row) (e : E),
        flush_batch create_record_batch write_record_batch st =
          (Except.error e, st2) → st2 = st) ∧
    (∀ (st st2 : WriterState Row),
        flush_batch create_record_batch write_record_batch st =
          (Except.ok (), st2) → st2.current_batch = []) := by
  constructor
  · intro st st2 e h
    unfold flush_batch at h
    split_ifs at h with hemp
    · exact absurd h (by simp)
    · cases hc : create_record_batch st.current_batch with
      | error e2 =>
        simp only [hc, Prod.mk.injEq] at h
        exact h.2.symm
      | ok rb =>
        simp only [hc] at h
        cases hw : write_record_batch rb with
        | error e2 =>
          simp only [hw, Prod.mk.injEq] at h
          exact h.2.symm
        | ok u =>
          cases u
          simp only [hw] at h
          exact absurd h (by simp)
  · intro st st2 h
    unfold flush_batch at h
    split_ifs at h with hemp
    · simp only [Prod.mk.injEq] at h
      rw [← h.2]
      exact List.isEmpty_iff.mp hemp
    · cases hc : create_record_batch st.current_batch with
      | error e2 =>
        simp only [hc] at h
        exact absurd h (by simp)
      | ok rb =>
        simp only [hc] at h
        cases hw : write_record_batch rb with
        | error e2 =>
          simp only [hw] at h
          exact absurd h (by simp)
        | ok u =>
          cases u
          simp only [hw, Prod.mk.injEq] at h
          rw [← h.2]

/-- Witness for the C7 theorem: a write that fails leaves the singleton
batch in place; a write that succeeds empties it. -/
theorem flush_batch_retention_witness :
    ((flush_batch (fun b => Except.ok b) (fun _ => (Except.error 0 : Except ℕ Unit))
        (⟨[5]⟩ : WriterState ℕ)).2) = (⟨[5]⟩ : WriterState ℕ) ∧
    ((flush_batch (fun b => Except.ok b) (fun _ => (Except.ok () : Except ℕ Unit))
        (⟨[5]⟩ : WriterState ℕ)).2).current_batch = [] := by
  exact ⟨(flush_batch_retention (fun b : List ℕ => Except.ok b)
      (fun _ => (Except.error 0 : Except ℕ Unit))).1 ⟨[5]⟩ _ 0
      (by with_unfolding_all rfl),
    (flush_batch_retention (fun b : List ℕ => Except.ok b)
      (fun _ => (Except.ok () : Except ℕ Unit))).2 ⟨[5]⟩ _
      (by with_unfolding_all rfl)⟩
